import Mathlib

/-!
Verification of the job-application-agent repository against its
natural-language specification.

The development shallowly embeds the Python modules
`job_manager.py`, `cv_parser.py`, `llm_interface.py` and `telegram_bot.py`
as executable Lean definitions and proves (or refutes) the frozen claims
about them.  Python values that travel through `json` are modelled by the
inductive `Json`; fallible Python functions return `Except`; the per-user
mutable state of the Telegram conversation is threaded explicitly.
-/

/-- Model of a Python value produced by `json.loads` / consumed by
`json.dump`: null, booleans, numbers, strings, lists and dicts
(dicts keep insertion order, as Python dicts do). -/
inductive Json where
  | null : Json
  | bool (b : Bool) : Json
  | num (n : Int) : Json
  | str (s : String) : Json
  | arr (xs : List Json) : Json
  | obj (fields : List (String × Json)) : Json

/-- Model of Python `dict.get(k)`: the value stored under the first (unique)
occurrence of the key, `none` when the key is absent.  In the source a
`.get` on a value that is not a dict raises `AttributeError`; the theorems
below only apply this to values that the embedded code itself stores as
dicts. -/
def Json.getField : Json → String → Option Json
  | .obj fields, k => (fields.find? (fun p => p.1 == k)).map (fun p => p.2)
  | _, _ => none

/-- Model of Python `d[k] = v` on a dict: overwrite the value under an
existing key in place, otherwise append the new key at the end (Python
dicts preserve insertion order).  On a non-dict the source would raise
`TypeError`; the embedded code only ever applies it to dicts. -/
def Json.setField : Json → String → Json → Json
  | .obj fields, k, v =>
      if fields.any (fun p => p.1 == k) then
        .obj (fields.map (fun p => if p.1 == k then (k, v) else p))
      else
        .obj (fields ++ [(k, v)])
  | j, _, _ => j

/-!
Embedding of `job_manager.py` (job-application tracking).

The content of the single per-user history file
`{user_id}_job_applications.json` is modelled as `Option Json`
(`none` = the file does not exist, matching `_read_json` returning `None`).
Distinct users use distinct files, so one file models one user.
Successive `datetime.datetime.now()` calls inside a single invocation are
modelled as the same instant, passed in as the `now` argument.
-/

/-- The `application_entry` dict built at `job_manager.py` lines 146-152. -/
def mkApplicationEntry (job_id : String) (job_details : Json)
    (status now : String) : Json :=
  .obj [("job_id", .str job_id), ("details", job_details),
        ("status", .str status), ("applied_at", .str now),
        ("last_updated_status_at", .str now)]

/-- Model of `entry.get("job_id") == job_id` (Python equality of a JSON
value against a string: true only when the value is exactly that string). -/
def jsonIdMatches (e : Json) (job_id : String) : Bool :=
  match e.getField "job_id" with
  | some (.str s) => s == job_id
  | _ => false

/-- The `for i, entry in enumerate(job_history)` loop of `log_application`
(`job_manager.py` lines 155-165): at the first entry whose `job_id`
matches, replace it by the new entry, restore the original `applied_at`
(defaulting to the new entry value when absent), stamp
`last_updated_status_at`, and stop (`break`).  Returns the updated list
and the `found_existing` flag. -/
def logUpdateLoop (job_id : String) (application_entry : Json)
    (now : String) : List Json → List Json × Bool
  | [] => ([], false)
  | e :: rest =>
    if jsonIdMatches e job_id then
      let original_applied_at :=
        (e.getField "applied_at").getD
          ((application_entry.getField "applied_at").getD .null)
      (((application_entry.setField "applied_at" original_applied_at).setField
          "last_updated_status_at" (.str now)) :: rest, true)
    else
      let r := logUpdateLoop job_id application_entry now rest
      (e :: r.1, r.2)

/-- Embedding of `log_application` (`job_manager.py` lines 133-174) acting
on the content of the user history file.  Faithful details: the file is
read back with `_read_json`; any content that is not a bare JSON list
(including the `{"applications": [...]}` object that this very function
writes) fails the `isinstance(job_history, list)` check and is replaced by
the empty list.  The function performs two writes - first the bare list,
then `{"applications": job_history}` - so the value at rest is the second
one, which this function returns. -/
def log_application (store : Option Json) (job_id : String)
    (job_details : Json) (status now : String) : Option Json :=
  let job_history : List Json :=
    match store with
    | some (Json.arr xs) => xs
    | _ => []
  let application_entry := mkApplicationEntry job_id job_details status now
  let upd := logUpdateLoop job_id application_entry now job_history
  let final_history := if upd.2 then upd.1 else upd.1 ++ [application_entry]
  some (Json.obj [("applications", Json.arr final_history)])

/-- The `for application in job_history` loop of `update_application_status`
(`job_manager.py` lines 193-199): at the first entry whose `job_id`
matches, set `status` and `last_updated_status_at` and stop. -/
def statusUpdateLoop (job_id new_status now : String) :
    List Json → List Json × Bool
  | [] => ([], false)
  | e :: rest =>
    if jsonIdMatches e job_id then
      (((e.setField "status" (.str new_status)).setField
          "last_updated_status_at" (.str now)) :: rest, true)
    else
      let r := statusUpdateLoop job_id new_status now rest
      (e :: r.1, r.2)

/-- Embedding of `update_application_status` (`job_manager.py` lines
177-206).  Returns the Python return value together with the file content
after the call.  A missing file, a file without an `"applications"` key or
one whose `"applications"` value is not a list takes the early
`return False` branch without writing; on success the function writes
`{"applications": job_history}`. -/
def update_application_status (store : Option Json)
    (job_id new_status now : String) : Bool × Option Json :=
  match store with
  | some (Json.obj fields) =>
    match (Json.obj fields).getField "applications" with
    | some (Json.arr apps) =>
      let r := statusUpdateLoop job_id new_status now apps
      if r.2 then (true, some (Json.obj [("applications", Json.arr r.1)]))
      else (false, some (Json.obj fields))
    | _ => (false, some (Json.obj fields))
  | other => (false, other)

/-- Reads the list of stored applications back out of a history file, the
way `get_user_job_history` and `update_application_status` do. -/
def storedApplications (store : Option Json) : Option (List Json) :=
  match store with
  | some j =>
    match j.getField "applications" with
    | some (.arr xs) => some xs
    | _ => none
  | none => none

/-!
Embedding of `cv_parser.py` (document text extraction), stream-input path.
-/

/-- ASCII model of Python `str.strip()` whitespace: space, tab, newline,
carriage return, vertical tab, form feed. -/
def isPySpace (c : Char) : Bool :=
  c == ' ' || c == '\t' || c == '\n' || c == '\r' ||
  c == '\x0b' || c == '\x0c'

/-- Strips a character list on both ends: drop a leading run satisfying
the predicate, then a trailing one. -/
def stripChars (p : Char → Bool) (l : List Char) : List Char :=
  ((l.dropWhile p).reverse.dropWhile p).reverse

/-- Model of Python `s.strip()`: drop leading and trailing whitespace. -/
def pyStrip (s : String) : String :=
  String.mk (stripChars isPySpace s.data)

/-- ASCII model of Python `str.lower()` on one character. -/
def charLower (c : Char) : Char :=
  if 'A' ≤ c && c ≤ 'Z' then Char.ofNat (c.toNat + 32) else c

/-- ASCII model of Python `str.lower()`. -/
def strLower (s : String) : String :=
  String.mk (s.data.map charLower)

/-- Model of Python `s.endswith(t)`. -/
def strEndsWith (s suffixStr : String) : Bool :=
  suffixStr.data.isSuffixOf s.data

/-- Index of the last occurrence of a character in a list, if any. -/
def lastIndexOf (cs : List Char) (c : Char) : Option Nat :=
  ((List.range cs.length).filter (fun i => cs[i]? == some c)).getLast?

/-- The extension part returned by Python `os.path.splitext(p)` (CPython
`genericpath._splitext` with separator `/`): the suffix starting at the
last dot, provided that dot lies after the last separator and some
character strictly between the start of the basename and that dot is not
itself a dot (so `".bashrc"` has no extension). -/
def splitextExt (p : String) : String :=
  let cs := p.data
  match lastIndexOf cs '.' with
  | none => ""
  | some d =>
    let start : Nat :=
      match lastIndexOf cs '/' with
      | none => 0
      | some si => si + 1
    let sepOk : Bool :=
      match lastIndexOf cs '/' with
      | none => true
      | some si => decide (si < d)
    if sepOk && ((cs.drop start).take (d - start)).any (fun c => c != '.')
    then String.mk (cs.drop d)
    else ""

/-- One page handed back by `PyPDF2.PdfReader.pages`: `extracted t` models
`page.extract_text()` returning a string or `None`, `extractFails` models
the call raising. -/
inductive PdfPage where
  | extracted (t : Option String) : PdfPage
  | extractFails : PdfPage

/-- What `PyPDF2.PdfReader` makes of a byte stream: either it fails to
open (corrupt container) or it yields a page list. -/
inductive PdfDoc where
  | corrupt : PdfDoc
  | pages (ps : List PdfPage) : PdfDoc

/-- What `docx.Document` makes of a byte stream: either the package fails
to load or it yields the paragraph texts in document order. -/
inductive DocxDoc where
  | corrupt : DocxDoc
  | paras (ps : List String) : DocxDoc

/-- The abstract content of an uploaded byte stream, as the two
third-party readers would interpret it. -/
inductive DocContent where
  | pdfContent (d : PdfDoc) : DocContent
  | docxContent (d : DocxDoc) : DocContent
  | otherBytes : DocContent

/-- Reading the bytes with `PyPDF2.PdfReader`: anything that is not a
well-formed PDF raises, i.e. behaves as corrupt. -/
def readAsPdf : DocContent → PdfDoc
  | .pdfContent d => d
  | _ => .corrupt

/-- Reading the bytes with `docx.Document`. -/
def readAsDocx : DocContent → DocxDoc
  | .docxContent d => d
  | _ => .corrupt

/-- The exception type raised by `cv_parser.py` (class `CVParserError` in
`error_handler.py`); dynamic cause texts appended by f-strings are
dropped from the modelled message. -/
structure CVParserError where
  msg : String
deriving DecidableEq

/-- The `for page_num, page in enumerate(pdf_reader.pages)` loop of
`_extract_text_from_pdf` (`cv_parser.py` lines 15-20): each page
appends its extracted text to `text_parts`, with `or ""` turning `None`
into the empty string and the per-page `except` clause appending the
empty string for a page whose extraction raises. -/
def pdfLoop : List PdfPage → List String
  | [] => []
  | pg :: rest =>
    (match pg with
     | .extracted t => t.getD ""
     | .extractFails => "") :: pdfLoop rest

/-- Embedding of `_extract_text_from_pdf` (`cv_parser.py` lines 10-27):
a stream the reader cannot open raises `CVParserError`; otherwise the
per-page texts are joined with newline separators. -/
def extract_text_from_pdf (d : PdfDoc) : Except CVParserError String :=
  match d with
  | .corrupt => .error ⟨"Error processing PDF file"⟩
  | .pages ps => .ok (String.intercalate "\n" (pdfLoop ps))

/-- Embedding of `_extract_text_from_docx` (`cv_parser.py` lines 30-42). -/
def extract_text_from_docx (d : DocxDoc) : Except CVParserError String :=
  match d with
  | .corrupt => .error ⟨"Error processing DOCX file"⟩
  | .paras ps => .ok (String.intercalate "\n" ps)

/-- A file-like object handed to `parse_cv`: its abstract content, its
current read position, and whether it is already an `io.BytesIO`
in-memory buffer. -/
structure ByteStream where
  content : DocContent
  pos : Nat
  isBytesBuffer : Bool

/-- The read position of the caller-owned stream after `parse_cv`
returns or raises.  `parserDependent` marks the one case (in-memory
buffer, third-party parse raises) where the position is wherever the
third-party reader stopped. -/
inductive FinalPos where
  | known (n : Nat) : FinalPos
  | parserDependent : FinalPos
deriving DecidableEq

/-- Embedding of `parse_cv` (`cv_parser.py` lines 45-133), stream-input
branch (line 85 onward).  Control flow of the source: for a stream that
is not a `BytesIO` the bytes are first copied into a fresh buffer
(`tell`, `seek(0)`, `read`, `seek(current_pos)`, lines 93-96), so the
caller position is restored before anything else happens; an in-memory
buffer is used directly and rewound with `seek(0)` (line 103).  Then the
extension computed by `os.path.splitext(file_name.lower())` dispatches to
the PDF or DOCX extractor, or raises the unsupported-type
`CVParserError`; on success the buffer is rewound again (line 113) and
the stripped text is returned (line 125). -/
def parse_cv (strm : ByteStream) (file_name : String) :
    Except CVParserError String × FinalPos :=
  let ext := splitextExt (strLower file_name)
  let parsed : Except CVParserError String :=
    if ext == ".pdf" then extract_text_from_pdf (readAsPdf strm.content)
    else if ext == ".docx" then
      extract_text_from_docx (readAsDocx strm.content)
    else
      .error ⟨"Unsupported file type: " ++ ext ++
        ". Please upload a PDF or DOCX file."⟩
  let result := Except.map pyStrip parsed
  let finalPos : FinalPos :=
    if strm.isBytesBuffer then
      match result with
      | .ok _ => .known 0
      | .error _ =>
        if ext == ".pdf" || ext == ".docx" then .parserDependent
        else .known 0
    else .known strm.pos
  (result, finalPos)

/-!
Embedding of `llm_interface.py` (model calls and response validation).
The Gemini response object is modelled structurally; `json.loads` is an
external collaborator passed in as a function `String → Option Json`
(`none` models the call raising `json.JSONDecodeError`).
-/

/-- One part of a candidate content; `text = none` models a part without
a `text` attribute (the `hasattr(part, 'text')` filter skips it). -/
structure RespPart where
  text : Option String

/-- The `content` attribute of a candidate. -/
structure RespContent where
  parts : List RespPart

/-- One response candidate: its `finish_reason` (the source compares it
against the string literals `STOP`, `MAX_TOKENS`, `SAFETY`,
`RECITATION`) and its `content`, which may be absent. -/
structure Candidate where
  finish_reason : String
  content : Option RespContent

/-- The model response: its candidate list and the value of the
`response.text` fallback attribute (`none` models `hasattr(response,
'text')` being false). -/
structure GenResponse where
  candidates : List Candidate
  text : Option String

/-- The distinct failure sites of the embedded `llm_interface.py`
functions.  In the source all of them raise the single class
`LLMInterfaceError`, distinguished by message; each raise inside the
`try` of `_send_prompt_async` additionally passes through the generic
`except Exception` clause, which re-raises with an `Unexpected error
interacting with Gemini:` message prefix that preserves the inner
message.  The constructors record the originating site. -/
inductive LLMError where
  | notConfigured : LLMError
  | blocked (reason : String) : LLMError
  | generationFailed (reason : String) : LLMError
  | noValidText : LLMError
  | contentAttrError : LLMError
  | cvAnalysisNotJson : LLMError
  | questionsNotJson : LLMError
  | questionsNotListOfStrings : LLMError
deriving DecidableEq

/-- Model of `"".join(part.text for part in parts if hasattr(part,
'text'))` (`llm_interface.py` lines 86 and 93). -/
def joinParts (ps : List RespPart) : String :=
  String.join (ps.filterMap (fun p => p.text))

/-- The `for candidate in response.candidates` loop of
`_send_prompt_async` (`llm_interface.py` lines 84-104).  `ok (some t)`
models `return t`; `ok none` models the loop finishing without a return
(which happens when a candidate with text-bearing branches yields an
empty joined text); `error` models a raise.  Faithful branch order: the
first `if` needs `finish_reason == 'STOP'` AND a truthy `content` AND a
truthy `parts`, so a STOP candidate without content parts falls through
all the `elif`s into the final `else` raise; a MAX_TOKENS candidate
accesses `candidate.content.parts` unconditionally, so an absent content
raises `AttributeError` there (caught by the enclosing `except
Exception`). -/
def processCandidates : List Candidate → Except LLMError (Option String)
  | [] => .ok none
  | c :: rest =>
    if c.finish_reason == "STOP" then
      match c.content with
      | some ct =>
        if ct.parts.isEmpty then .error (.generationFailed c.finish_reason)
        else
          let full_text := joinParts ct.parts
          if full_text == "" then processCandidates rest
          else .ok (some full_text)
      | none => .error (.generationFailed c.finish_reason)
    else if c.finish_reason == "MAX_TOKENS" then
      match c.content with
      | some ct =>
        let full_text := joinParts ct.parts
        if full_text == "" then processCandidates rest
        else .ok (some full_text)
      | none => .error .contentAttrError
    else if c.finish_reason == "SAFETY" || c.finish_reason == "RECITATION"
    then .error (.blocked c.finish_reason)
    else .error (.generationFailed c.finish_reason)

/-- Embedding of `_send_prompt_async` (`llm_interface.py` lines 45-119)
applied to the response the API returned: the not-configured guard, the
candidate loop, then the `response.text` fallback (returned only when
present and truthy), and finally the no-valid-text raise. -/
def send_prompt (configured : Bool) (resp : GenResponse) :
    Except LLMError String :=
  if configured then
    match processCandidates resp.candidates with
    | .error e => .error e
    | .ok (some t) => .ok t
    | .ok none =>
      match resp.text with
      | some t => if t == "" then .error .noValidText else .ok t
      | none => .error .noValidText
  else .error .notConfigured

/-- Embedding of `analyze_cv_text` (`llm_interface.py` lines 124-170):
send the prompt, parse the response text with `json.loads`
(`jsonLoads`), return the parsed analysis; a `json.JSONDecodeError`
becomes the not-valid-JSON `LLMInterfaceError`, and errors from
`_send_prompt_async` re-raise unchanged. -/
def analyze_cv_text (jsonLoads : String → Option Json)
    (configured : Bool) (resp : GenResponse) : Except LLMError Json :=
  match send_prompt configured resp with
  | .error e => .error e
  | .ok response_text =>
    match jsonLoads response_text with
    | some analysis => .ok analysis
    | none => .error .cvAnalysisNotJson

/-- The keys of `context.user_data` used by the conversation; `none`
models an absent key. -/
structure UserData where
  raw_cv_text : Option String
  cv_analysis : Option Json
  questions : Option (List String)
  answers : Option (List (String × String))
  current_question_index : Option Nat

/-- A fresh `user_data` dict with none of the conversation keys set. -/
def emptyUserData : UserData := ⟨none, none, none, none, none⟩

/-- Conversation states: the handler constants `ASK_CV` and
`ASK_QUESTIONS` plus `ConversationHandler.END`.  The source uses the one
terminal value `END` both for the completion path and for cancellation;
the specification names these `Completed` and `Cancelled` respectively,
distinguished by the handler path that returned `END`. -/
inductive ConvState where
  | askCV : ConvState
  | askQuestions : ConvState
  | ended : ConvState
deriving DecidableEq

/-- Result of one handler invocation: the state it returns, the
`user_data` it leaves behind, and how many `store_user_profile`-style
persistence calls it made. -/
structure StepOutput where
  next : ConvState
  data : UserData
  saveProfileCalls : Nat

/-- Outcome of the configuration step `await ensure_llm_client_configured()`
at `telegram_bot.py` line 89: the underlying synchronous
`configure_genai_client` either raises `ConfigError` (key missing or
placeholder), raises `LLMInterfaceError` (unexpected failure while
configuring), or succeeds - in which case it returns `None` and the
`await` of that `None` raises `TypeError`. -/
inductive ConfigAttempt where
  | raisesConfigError : ConfigAttempt
  | raisesLLMError : ConfigAttempt
  | succeeds : ConfigAttempt

/-- Embedding of `handle_cv_upload` (`telegram_bot.py` lines 65-157) as
the source actually executes.  After the document and extension checks,
the handler awaits the configuration step, the first statement of its
`try` block: a `ConfigError` is caught at lines 150-153 and ends the
conversation; an `LLMInterfaceError` raised while configuring is caught
at lines 146-149 and ends the conversation; and a SUCCESSFUL
configuration returns `None`, whose `await` raises `TypeError`, caught
by the generic `except Exception` at lines 154-157, which returns
`ASK_CV` with the session data untouched.  No later statement of the
`try` body can run; the document-processing continuation is embedded
separately as `cvUploadPipeline`. -/
def handle_cv_upload (hasDocument : Bool) (file_name : String)
    (config : ConfigAttempt) (data : UserData) : StepOutput :=
  if !hasDocument then ⟨.askCV, data, 0⟩
  else if !(strEndsWith (strLower file_name) ".pdf" ||
            strEndsWith (strLower file_name) ".docx") then
    ⟨.askCV, data, 0⟩
  else
    match config with
    | .raisesConfigError => ⟨.ended, data, 0⟩
    | .raisesLLMError => ⟨.ended, data, 0⟩
    | .succeeds => ⟨.askCV, data, 0⟩

/-- Embedding of the document-processing continuation of
`handle_cv_upload` (`telegram_bot.py` lines 91-140 with the `except`
dispatch of lines 142-157): the code that would run after the
configuration step if that step did not divert the handler.  In the
source as written this code is unreachable - awaiting the `None`
returned by the synchronous configure raises `TypeError` first (see
`handle_cv_upload`) - but the specification describes it, so it is
embedded for comparison.  Arguments mirror the outcomes of the three
fallible sub-calls (`parse_cv`, `analyze_cv_text`,
`generate_clarification_questions`).  Error dispatch follows the
`except` clauses: `CVParserError` returns to `ASK_CV`;
`LLMInterfaceError` ends the conversation.  Empty extracted text
re-prompts in `ASK_CV`; an empty question list ends the conversation at
once (the Q and A loop is skipped); otherwise the questions are stored,
the answers dict is reset, the index is set to 0 and the handler moves
to `ASK_QUESTIONS`.  No branch calls `store_user_profile`. -/
def cvUploadPipeline (parseResult : Except CVParserError String)
    (analysisResult : Except LLMError Json)
    (questionsResult : Except LLMError (List String))
    (data : UserData) : StepOutput :=
  match parseResult with
  | .error _ => ⟨.askCV, data, 0⟩
  | .ok raw_cv_text =>
    if raw_cv_text == "" then ⟨.askCV, data, 0⟩
    else
      let data1 := { data with raw_cv_text := some raw_cv_text }
      match analysisResult with
      | .error _ => ⟨.ended, data1, 0⟩
      | .ok cv_analysis =>
        let data2 := { data1 with cv_analysis := some cv_analysis }
        match questionsResult with
        | .error _ => ⟨.ended, data2, 0⟩
        | .ok questions =>
          if questions.isEmpty then ⟨.ended, data2, 0⟩
          else
            ⟨.askQuestions,
             { data2 with
                 questions := some questions
                 answers := some []
                 current_question_index := some 0 },
             0⟩

/-- The answer key built at `telegram_bot.py` line 177:
`f"answer_to_{current_index+1}_{question_answered[:20]}"`. -/
def answerKey (current_index : Nat) (question_answered : String) : String :=
  "answer_to_" ++ toString (current_index + 1) ++ "_" ++
    String.mk (question_answered.data.take 20)

/-- Model of Python `d[k] = v` on the answers dict. -/
def dictInsert (d : List (String × String)) (k v : String) :
    List (String × String) :=
  if d.any (fun p => p.1 == k) then
    d.map (fun p => if p.1 == k then (k, v) else p)
  else d ++ [(k, v)]

/-- Embedding of `handle_question_answer` (`telegram_bot.py` lines
160-206).  An empty or exhausted question list bounces back to `ASK_CV`
without touching the data.  Otherwise the answer is recorded under the
`answerKey` of the current question, the index advances, and either the
next question is asked (`ASK_QUESTIONS`) or the conversation ends; in
the source the cleanup of `user_data` at the end is commented out, so
the collected answers remain stored.  `none` models the handler crashing
with `KeyError` when the `answers` key is absent (the source indexes
`context.user_data['answers']` without a default). -/
def handle_question_answer (answer : String) (data : UserData) :
    Option StepOutput :=
  let current_index := data.current_question_index.getD 0
  let questions := data.questions.getD []
  if questions.isEmpty || decide (questions.length ≤ current_index) then
    some ⟨.askCV, data, 0⟩
  else
    match data.answers with
    | none => none
    | some answers =>
      let question_answered := questions.getD current_index ""
      let answers1 :=
        dictInsert answers (answerKey current_index question_answered) answer
      let new_index := current_index + 1
      let data1 :=
        { data with
            answers := some answers1
            current_question_index := some new_index }
      if decide (new_index < questions.length) then
        some ⟨.askQuestions, data1, 0⟩
      else
        some ⟨.ended, data1, 0⟩

/-- Embedding of `cancel_command` (`telegram_bot.py` lines 220-231): pop
all five conversation keys from `user_data` and return `END`. -/
def cancel_command (data : UserData) : StepOutput :=
  let _ := data
  ⟨.ended, emptyUserData, 0⟩

/-- An inbound event, carrying for a document upload the configuration
outcome that `handle_cv_upload` consumes. -/
inductive BotEvent where
  | docUpload (hasDocument : Bool) (file_name : String)
      (config : ConfigAttempt) : BotEvent
  | textMessage (answer : String) : BotEvent
  | cancel : BotEvent

/-- The `ConversationHandler` wiring of `setup_bot` (`telegram_bot.py`
lines 254-261): in `ASK_CV` a document event runs `handle_cv_upload`, in
`ASK_QUESTIONS` a text message runs `handle_question_answer`, and in
either active state the `/cancel` fallback runs `cancel_command`.
`none` means no handler fires (including any event once the conversation
has ended). -/
def conversationStep (state : ConvState) (ev : BotEvent)
    (data : UserData) : Option StepOutput :=
  match state, ev with
  | .askCV, .docUpload hasDoc fname cfg =>
    some (handle_cv_upload hasDoc fname cfg data)
  | .askQuestions, .textMessage answer => handle_question_answer answer data
  | .askCV, .cancel => some (cancel_command data)
  | .askQuestions, .cancel => some (cancel_command data)
  | _, _ => none

/-!
Helper lemmas.
-/

/-- Dropping a matched run twice is the same as dropping it once. -/
lemma dropWhile_dropWhile (p : Char → Bool) (l : List Char) :
    (l.dropWhile p).dropWhile p = l.dropWhile p := by
  induction l with
  | nil => rfl
  | cons a t ih =>
    by_cases h : p a = true
    · simp [List.dropWhile_cons, h, ih]
    · simp [List.dropWhile_cons, h]

/-- The head surviving a `dropWhile` does not satisfy the predicate. -/
lemma dropWhile_head_false (p : Char → Bool) (l : List Char) (a : Char)
    (t : List Char) (h : l.dropWhile p = a :: t) : p a = false := by
  induction l with
  | nil => simp [List.dropWhile_nil] at h
  | cons x xs ih =>
    rw [List.dropWhile_cons] at h
    by_cases hx : p x = true
    · rw [if_pos hx] at h
      exact ih h
    · rw [if_neg hx] at h
      injection h with h1 _
      subst h1
      simpa using hx

/-- The front of `stripChars` is already stripped. -/
lemma dropWhile_stripChars (p : Char → Bool) (l : List Char) :
    (stripChars p l).dropWhile p = stripChars p l := by
  unfold stripChars
  cases hm : l.dropWhile p with
  | nil => simp
  | cons a t =>
    have ha : p a = false := dropWhile_head_false p l a t hm
    rw [List.reverse_cons, List.dropWhile_append]
    by_cases hd : (t.reverse.dropWhile p).isEmpty = true
    · rw [if_pos hd]
      simp [List.dropWhile_cons, ha]
    · rw [if_neg hd]
      rw [List.reverse_append]
      simp [List.dropWhile_cons, ha]

/-- Stripping is idempotent at the character-list level. -/
lemma stripChars_idem (p : Char → Bool) (l : List Char) :
    stripChars p (stripChars p l) = stripChars p l := by
  have h1 := dropWhile_stripChars p l
  unfold stripChars at h1 ⊢
  rw [h1, List.reverse_reverse, dropWhile_dropWhile]

/-- Python `strip` is idempotent. -/
lemma pyStrip_idem (s : String) : pyStrip (pyStrip s) = pyStrip s := by
  unfold pyStrip
  rw [show (String.mk (stripChars isPySpace s.data)).data =
      stripChars isPySpace s.data from rfl]
  rw [stripChars_idem]

/-- Stripping an all-whitespace string gives the empty string. -/
lemma pyStrip_eq_empty (s : String)
    (h : ∀ c ∈ s.data, isPySpace c = true) : pyStrip s = "" := by
  unfold pyStrip stripChars
  rw [List.dropWhile_eq_nil_iff.mpr h]
  rfl

/-- Any success of a `pyStrip`-mapped result is a fixed point of
`pyStrip`. -/
lemma pyStrip_of_map_ok (e : Except CVParserError String) (t : String)
    (h : Except.map pyStrip e = .ok t) : pyStrip t = t := by
  cases e with
  | error b => simp [Except.map] at h
  | ok a =>
    simp [Except.map] at h
    rw [← h]
    exact pyStrip_idem a

/-- The per-page loop distributes over appending page lists. -/
lemma pdfLoop_append (xs ys : List PdfPage) :
    pdfLoop (xs ++ ys) = pdfLoop xs ++ pdfLoop ys := by
  induction xs with
  | nil => rfl
  | cons x t ih => simp [pdfLoop, ih]

/-- A candidate loop that returns a text returns a non-empty text. -/
lemma processCandidates_ok_ne (cs : List Candidate) (t : String)
    (h : processCandidates cs = .ok (some t)) : t ≠ "" := by
  induction cs with
  | nil => simp [processCandidates] at h
  | cons c rest ih =>
    rw [processCandidates] at h
    by_cases h1 : (c.finish_reason == "STOP") = true
    · rw [if_pos h1] at h
      cases hc : c.content with
      | none => simp only [hc] at h; exact absurd h (by simp)
      | some ct =>
        simp only [hc] at h
        by_cases h2 : ct.parts.isEmpty = true
        · rw [if_pos h2] at h; exact absurd h (by simp)
        · rw [if_neg h2] at h
          by_cases h3 : (joinParts ct.parts == "") = true
          · rw [if_pos h3] at h; exact ih h
          · rw [if_neg h3] at h
            simp only [Except.ok.injEq, Option.some.injEq] at h
            rw [← h]
            intro he
            exact h3 (by simp [he])
    · rw [if_neg h1] at h
      by_cases h4 : (c.finish_reason == "MAX_TOKENS") = true
      · rw [if_pos h4] at h
        cases hc : c.content with
        | none => simp only [hc] at h; exact absurd h (by simp)
        | some ct =>
          simp only [hc] at h
          by_cases h3 : (joinParts ct.parts == "") = true
          · rw [if_pos h3] at h; exact ih h
          · rw [if_neg h3] at h
            simp only [Except.ok.injEq, Option.some.injEq] at h
            rw [← h]
            intro he
            exact h3 (by simp [he])
      · rw [if_neg h4] at h
        by_cases h5 : (c.finish_reason == "SAFETY" ||
            c.finish_reason == "RECITATION") = true
        · rw [if_pos h5] at h; exact absurd h (by simp)
        · rw [if_neg h5] at h; exact absurd h (by simp)

/-- Claim C2: calling `log_application` twice with the same `job_id`
does NOT preserve `applied_at` from the first write.  `log_application`
writes `{"applications": [...]}` but on the next call expects a bare JSON
list, so the `isinstance(job_history, list)` check fails, the existing
history is discarded, and a fresh record carrying the second timestamp is
stored.  Concretely: after logging job `"job1"` at time `"t1"` and again
(new details, new status) at time `"t2"`, the store holds exactly one
record whose `applied_at` is `"t2"`, not the first-write value `"t1"`;
the claim (and the docstring plus the standalone test of
`job_manager.py`, which asserts two records after a duplicate log) say
`applied_at` stays `"t1"`.  The second half of the claim does hold:
`update_application_status` with an absent `job_id` returns `False` and
leaves the store unchanged. -/
theorem C2_log_application_discards_history :
    (let s1 := log_application none "job1" (Json.str "details-v1")
        "interested" "t1"
     let s2 := log_application s1 "job1" (Json.str "details-v2")
        "applied" "t2"
     storedApplications s2 =
        some [mkApplicationEntry "job1" (Json.str "details-v2")
          "applied" "t2"] ∧
     (mkApplicationEntry "job1" (Json.str "details-v2") "applied"
        "t2").getField "applied_at" = some (Json.str "t2") ∧
     "t2" ≠ "t1" ∧
     update_application_status s2 "ghost-job" "rejected" "t3" = (false, s2)) := by
  refine ⟨rfl, rfl, by decide, rfl⟩

/-- Claim C1, evaluated against the code: with the API key configured,
uploading the valid document of the claimed scenario makes
`handle_cv_upload` return `ASK_CV` with the session data untouched and
zero persistence calls - awaiting the `None` returned by the
synchronous configure raises `TypeError` before `parse_cv` ever runs -
so the session stays in `AwaitingDocument` and never reaches the
completed state or collects any answer.  Even the unreachable
document-processing continuation that the claim describes would end the
session with a 2-entry answer set and ZERO `save_profile`-equivalent
calls, not one: the persistence calls in the source are commented-out
placeholders. -/
theorem C1_upload_diverted_and_zero_saves :
    (handle_cv_upload true "resume.pdf" .succeeds emptyUserData =
       ⟨.askCV, emptyUserData, 0⟩ ∧
     ConvState.askCV ≠ ConvState.ended) ∧
    (let s1 := cvUploadPipeline (.ok "Jane Doe, Python, 5 years")
        (.ok (Json.obj [("skills", Json.arr [Json.str "Python"])]))
        (.ok ["Remote or onsite?", "Salary range?"]) emptyUserData
     let s2 := (handle_question_answer "Remote" s1.data).getD
        ⟨.ended, emptyUserData, 0⟩
     let s3 := (handle_question_answer "100k-120k" s2.data).getD
        ⟨.ended, emptyUserData, 0⟩
     s1.next = .askQuestions ∧
     handle_question_answer "Remote" s1.data = some s2 ∧
     handle_question_answer "100k-120k" s2.data = some s3 ∧
     s3.next = .ended ∧
     (s3.data.answers.getD []).length = 2 ∧
     s1.saveProfileCalls + s2.saveProfileCalls + s3.saveProfileCalls = 0 ∧
     s1.saveProfileCalls + s2.saveProfileCalls + s3.saveProfileCalls ≠ 1) :=
  ⟨⟨rfl, by decide⟩, rfl, rfl, rfl, rfl, rfl, rfl, by decide⟩

/-- Claim C3, counterexample: a completion truncated at the length limit
that carries no text at all does not produce the invalid-JSON error the
claim requires for an unparseable partial text; the empty joined text
falls through the candidate loop and `analyze` fails at the
no-valid-text raise site of `_send_prompt_async` instead. -/
theorem C3_counterexample :
    analyze_cv_text (fun _ => none) true
        ⟨[⟨"MAX_TOKENS", some ⟨[]⟩⟩], none⟩ =
      .error LLMError.noValidText ∧
    LLMError.noValidText ≠ LLMError.cvAnalysisNotJson :=
  ⟨rfl, by decide⟩

/-- Claim C3, amended: when the completion is truncated at the length
limit and the truncated candidate carries NON-EMPTY partial text,
`analyze` returns that text parsed as the profile analysis exactly when
it parses as valid JSON, and otherwise fails with the same invalid-JSON
error as a malformed normal completion; a truncated completion with no
text instead falls through to the no-valid-text error. -/
theorem C3_truncated_nonempty (jsonLoads : String → Option Json)
    (parts : List RespPart) (txtAttr : Option String)
    (h : joinParts parts ≠ "") :
    analyze_cv_text jsonLoads true
        ⟨[⟨"MAX_TOKENS", some ⟨parts⟩⟩], txtAttr⟩ =
      (match jsonLoads (joinParts parts) with
       | some analysis => Except.ok analysis
       | none => Except.error LLMError.cvAnalysisNotJson) := by
  have hb : (joinParts parts == "") = false := beq_eq_false_iff_ne.mpr h
  have e1 : (("MAX_TOKENS" : String) == "STOP") = false := by decide
  have e2 : (("MAX_TOKENS" : String) == "MAX_TOKENS") = true := by decide
  have hsp : send_prompt true ⟨[⟨"MAX_TOKENS", some ⟨parts⟩⟩], txtAttr⟩ =
      .ok (joinParts parts) := by
    simp [send_prompt, processCandidates, hb, e1, e2]
  simp only [analyze_cv_text, hsp]

/-- Claim C3, amended, witness: a truncated candidate carrying the
parseable partial text of an empty JSON list. -/
theorem C3_truncated_nonempty_witness :
    joinParts [⟨some "[]"⟩] ≠ "" ∧
    analyze_cv_text (fun s => if s == "[]" then some (Json.arr []) else none)
        true ⟨[⟨"MAX_TOKENS", some ⟨[⟨some "[]"⟩]⟩⟩], none⟩ =
      (match (fun s => if s == "[]" then some (Json.arr []) else none)
          (joinParts [⟨some "[]"⟩]) with
       | some analysis => Except.ok analysis
       | none => Except.error LLMError.cvAnalysisNotJson) :=
  ⟨by decide,
   C3_truncated_nonempty
     (fun s => if s == "[]" then some (Json.arr []) else none)
     [⟨some "[]"⟩] none (by decide)⟩

/-- Claim C5, counterexample to the no-side-effect conjunct: an
unsupported upload handed over as a caller-owned in-memory `BytesIO`
buffer standing at position 5 does fail with the unsupported-format
error, but the buffer is rewound to offset 0 by `stream_to_parse.seek(0)`
(`cv_parser.py` line 103) before the raise - a caller-visible mutation,
so the failure is not free of side effects for every input stream. -/
theorem C5_counterexample :
    parse_cv ⟨.otherBytes, 5, true⟩ "cv.txt" =
      (.error ⟨"Unsupported file type: .txt. Please upload a PDF or DOCX file."⟩,
       .known 0) ∧
    FinalPos.known 0 ≠ FinalPos.known 5 :=
  ⟨rfl, by decide⟩

/-- Claim C5, amended: for every input byte stream and every declared
filename whose extension (as `os.path.splitext` computes it on the
lowered name) is outside the supported set, `parse_cv` always fails
with the unsupported-format `CVParserError` and never returns text
(partial or otherwise).  The only caller-visible effect is on the
stream position: a stream that is not an in-memory buffer is left at
its entry position, while a caller-owned in-memory buffer has been
rewound to offset 0 when the error is raised. -/
theorem C5_unsupported_extension (strm : ByteStream) (file_name : String)
    (hpdf : splitextExt (strLower file_name) ≠ ".pdf")
    (hdocx : splitextExt (strLower file_name) ≠ ".docx") :
    (parse_cv strm file_name).1 =
      .error ⟨"Unsupported file type: " ++ splitextExt (strLower file_name)
        ++ ". Please upload a PDF or DOCX file."⟩ ∧
    (strm.isBytesBuffer = false →
      (parse_cv strm file_name).2 = .known strm.pos) ∧
    (strm.isBytesBuffer = true →
      (parse_cv strm file_name).2 = .known 0) := by
  have h1 : (splitextExt (strLower file_name) == ".pdf") = false :=
    beq_eq_false_iff_ne.mpr hpdf
  have h2 : (splitextExt (strLower file_name) == ".docx") = false :=
    beq_eq_false_iff_ne.mpr hdocx
  refine ⟨?_, ?_, ?_⟩
  · simp [parse_cv, h1, h2, Except.map]
  · intro hb
    simp [parse_cv, hb]
  · intro hb
    simp [parse_cv, h1, h2, hb, Except.map]

/-- Claim C5, amended, witness: a plain-text upload named `cv.txt` on a
non-buffer stream at position 5. -/
theorem C5_unsupported_extension_witness :
    (splitextExt (strLower "cv.txt") ≠ ".pdf" ∧
     splitextExt (strLower "cv.txt") ≠ ".docx") ∧
    ((parse_cv ⟨.otherBytes, 5, false⟩ "cv.txt").1 =
      .error ⟨"Unsupported file type: " ++ splitextExt (strLower "cv.txt")
        ++ ". Please upload a PDF or DOCX file."⟩ ∧
     ((⟨.otherBytes, 5, false⟩ : ByteStream).isBytesBuffer = false →
      (parse_cv ⟨.otherBytes, 5, false⟩ "cv.txt").2 = .known
        (⟨.otherBytes, 5, false⟩ : ByteStream).pos) ∧
     ((⟨.otherBytes, 5, false⟩ : ByteStream).isBytesBuffer = true →
      (parse_cv ⟨.otherBytes, 5, false⟩ "cv.txt").2 = .known 0)) :=
  ⟨⟨by decide, by decide⟩,
   C5_unsupported_extension ⟨.otherBytes, 5, false⟩ "cv.txt"
     (by decide) (by decide)⟩

/-- Claim C6, evaluated against the code.  The extraction conjuncts do
hold of `parse_cv`: whenever it succeeds the returned text is a fixed
point of stripping (no leading or trailing whitespace), and a PDF whose
extracted page content is all whitespace (in particular a zero-page
PDF) is a valid non-error outcome yielding the empty string.  The
handler conjunct does not describe the program: the empty-extraction
check of `handle_cv_upload` is never reached, because with
configuration succeeding the handler returns `ASK_CV` from the
`TypeError` of awaiting the synchronous configure before `parse_cv` is
called (third conjunct); the re-prompt-on-empty-text handling exists
only in the unreachable continuation, which the last conjunct
evaluates. -/
theorem C6_trimmed_empty_and_dead_reprompt :
    (∀ (strm : ByteStream) (file_name t : String) (fp : FinalPos),
        parse_cv strm file_name = (.ok t, fp) → pyStrip t = t) ∧
    (∀ (strm : ByteStream) (ps : List PdfPage) (file_name : String),
        strm.content = .pdfContent (.pages ps) →
        splitextExt (strLower file_name) = ".pdf" →
        (∀ c ∈ (String.intercalate "\n" (pdfLoop ps)).data,
          isPySpace c = true) →
        (parse_cv strm file_name).1 = .ok "") ∧
    (handle_cv_upload true "scan.pdf" .succeeds emptyUserData =
       ⟨.askCV, emptyUserData, 0⟩) ∧
    (∀ (a : Except LLMError Json) (q : Except LLMError (List String))
        (data : UserData),
        cvUploadPipeline (.ok "") a q data = ⟨.askCV, data, 0⟩) := by
  refine ⟨?_, ?_, rfl, ?_⟩
  · intro strm file_name t fp h
    have h1 : (parse_cv strm file_name).1 = .ok t := by rw [h]
    simp only [parse_cv] at h1
    exact pyStrip_of_map_ok _ t h1
  · intro strm ps file_name hc hext hall
    have hb : (splitextExt (strLower file_name) == ".pdf") = true := by
      simp [hext]
    simp only [parse_cv, hb, if_pos, hc, readAsPdf, extract_text_from_pdf]
    simp [Except.map, pyStrip_eq_empty _ hall]
  · intro a q data
    simp [cvUploadPipeline]

/-- Claim C6, witness: a zero-page PDF stream named `empty.pdf` succeeds
with the empty string, and the unreachable continuation would bounce an
empty extraction back to the document-awaiting state. -/
theorem C6_trimmed_empty_and_dead_reprompt_witness :
    (parse_cv ⟨.pdfContent (.pages []), 3, false⟩ "empty.pdf" =
      (.ok "", .known 3) ∧
     pyStrip "" = "") ∧
    ((⟨.pdfContent (.pages []), 3, false⟩ : ByteStream).content =
      .pdfContent (.pages []) ∧
     splitextExt (strLower "empty.pdf") = ".pdf" ∧
     (parse_cv ⟨.pdfContent (.pages []), 3, false⟩ "empty.pdf").1 =
      .ok "") ∧
    (cvUploadPipeline (.ok "") (.ok Json.null) (.ok ["q"]) emptyUserData =
      ⟨.askCV, emptyUserData, 0⟩) :=
  ⟨⟨rfl, C6_trimmed_empty_and_dead_reprompt.1
      ⟨.pdfContent (.pages []), 3, false⟩ "empty.pdf" "" (.known 3) rfl⟩,
   ⟨rfl, by decide, C6_trimmed_empty_and_dead_reprompt.2.1
      ⟨.pdfContent (.pages []), 3, false⟩ [] "empty.pdf" rfl (by decide)
      (by intro c hc; simp [pdfLoop, String.intercalate] at hc)⟩,
   C6_trimmed_empty_and_dead_reprompt.2.2.2 (.ok Json.null) (.ok ["q"])
     emptyUserData⟩

/-- Claim C7: on the PDF path, for every successfully opened PDF, a
text-extraction failure on any single page does not abort the document:
the empty string is recorded in that page slot, the remaining pages are
still processed, and the result is the per-page texts joined with
newline separators in page order. -/
theorem C7_page_failure_recovery (pre suf : List PdfPage) :
    extract_text_from_pdf (.pages (pre ++ .extractFails :: suf)) =
      .ok (String.intercalate "\n" (pdfLoop pre ++ "" :: pdfLoop suf)) := by
  simp [extract_text_from_pdf, pdfLoop_append, pdfLoop]

/-- Claim C8: the cancel signal, fed in any non-terminal conversation
state, moves the session to the terminal end state with every per-session
field (questions, answers, current question index, raw CV text, CV
analysis) cleared from the session data. -/
theorem C8_cancel_clears (state : ConvState) (data : UserData)
    (h : state ≠ .ended) :
    conversationStep state .cancel data =
      some ⟨.ended, emptyUserData, 0⟩ := by
  cases state with
  | askCV => rfl
  | askQuestions => rfl
  | ended => exact absurd rfl h

/-- Claim C8, witness: cancelling mid-questionnaire wipes the stored
questions, partial answers, index, raw text and analysis. -/
theorem C8_cancel_clears_witness :
    ConvState.askQuestions ≠ ConvState.ended ∧
    conversationStep .askQuestions .cancel
        ⟨some "raw", some Json.null, some ["q1", "q2"],
          some [("k", "v")], some 1⟩ =
      some ⟨.ended, emptyUserData, 0⟩ :=
  ⟨by decide,
   C8_cancel_clears .askQuestions
     ⟨some "raw", some Json.null, some ["q1", "q2"], some [("k", "v")],
       some 1⟩ (by decide)⟩

/-- Claim C9: for every input stream that is not already an in-memory
byte buffer, `parse_cv` leaves the caller stream read position exactly
where it was on entry, whatever the outcome: the bytes are copied into a
fresh buffer and the original position is restored before any parsing
happens. -/
theorem C9_caller_position_restored (strm : ByteStream)
    (file_name : String) (h : strm.isBytesBuffer = false) :
    (parse_cv strm file_name).2 = .known strm.pos := by
  simp [parse_cv, h]

/-- Claim C9, witness: a corrupt non-buffer PDF stream at position 42
still comes back at position 42 even though parsing raises. -/
theorem C9_caller_position_restored_witness :
    (⟨.pdfContent .corrupt, 42, false⟩ : ByteStream).isBytesBuffer =
      false ∧
    (parse_cv ⟨.pdfContent .corrupt, 42, false⟩ "cv.pdf").2 =
      .known (⟨.pdfContent .corrupt, 42, false⟩ : ByteStream).pos :=
  ⟨rfl, C9_caller_position_restored ⟨.pdfContent .corrupt, 42, false⟩
    "cv.pdf" rfl⟩

/-- Claim C10: every successful result of the low-level model call is a
non-empty string; a candidate that finishes normally or by truncation but
carries no text never yields success, so callers that parse the result
never receive the empty string. -/
theorem C10_success_nonempty (configured : Bool) (resp : GenResponse)
    (t : String) (h : send_prompt configured resp = .ok t) : t ≠ "" := by
  rw [send_prompt] at h
  by_cases hcfg : configured = true
  · rw [if_pos hcfg] at h
    cases hp : processCandidates resp.candidates with
    | error e => simp only [hp] at h; exact absurd h (by simp)
    | ok o =>
      simp only [hp] at h
      cases o with
      | some t0 =>
        simp only [Except.ok.injEq] at h
        rw [← h]
        exact processCandidates_ok_ne _ _ hp
      | none =>
        cases htx : resp.text with
        | none => simp only [htx] at h; exact absurd h (by simp)
        | some t0 =>
          simp only [htx] at h
          by_cases h0 : (t0 == "") = true
          · rw [if_pos h0] at h; exact absurd h (by simp)
          · rw [if_neg h0] at h
            simp only [Except.ok.injEq] at h
            rw [← h]
            intro he
            exact h0 (by simp [he])
  · rw [if_neg hcfg] at h; exact absurd h (by simp)

/-- Claim C10, witness at a normally finished candidate carrying text. -/
theorem C10_success_nonempty_witness :
    send_prompt true ⟨[⟨"STOP", some ⟨[⟨some "hello"⟩]⟩⟩], none⟩ =
      .ok "hello" ∧
    ("hello" : String) ≠ "" :=
  ⟨rfl, C10_success_nonempty true
    ⟨[⟨"STOP", some ⟨[⟨some "hello"⟩]⟩⟩], none⟩ "hello" rfl⟩
